import Mathlib

/-!
Shallow embedding of `src/reader.js` (labalaba_baca single-page novel reader).

The mutable reader state (enclosing-scope variables plus the DOM pieces the
script writes) is a `ReaderState`; `localStorage` is an association list; the
network is an `Env` giving the fetch outcome per path (`none` models a rejected
fetch / network error).  Every operation returns the new state together with
the list of paths it fetched, in order.
-/

namespace NovelReader

/-- A parsed manifest entry `{number, title, file}` as plain data. -/
structure ChapterRec where
  number : Int
  title : String
  file : String
deriving DecidableEq

/-- A chapter object held in the `chapters` array.  JS objects compare by
reference (`===`, `indexOf`); `ref` models the heap reference: `JSON.parse`
creates one fresh object per array slot, so `parseManifest` below assigns
`ref` = array position, making references unique. -/
structure ChapterObj where
  ref : Nat
  number : Int
  title : String
  file : String
deriving DecidableEq

/-- Parsing of the manifest array (`JSON.parse`): each element becomes a fresh object;
position `i` gets reference `i0 + i`. -/
def buildObjs : Nat → List ChapterRec → List ChapterObj
  | _, [] => []
  | i, r :: t => { ref := i, number := r.number, title := r.title, file := r.file } :: buildObjs (i + 1) t

/-- The chapter list as produced by `chapters = await response.json()`. -/
def parseManifest (recs : List ChapterRec) : List ChapterObj :=
  buildObjs 0 recs

/-- Model of `Array.prototype.indexOf` with JS `===` on objects, i.e. reference
equality: scan left to right, return the first position whose element is the
same reference, `-1` when absent. -/
def indexOfJsAux : Nat → List ChapterObj → ChapterObj → Int
  | _, [], _ => -1
  | i, c :: t, x => if c.ref == x.ref then (i : Int) else indexOfJsAux (i + 1) t x

def indexOfJs (l : List ChapterObj) (x : ChapterObj) : Int :=
  indexOfJsAux 0 l x

/-- Model of `localStorage`: an association list of string keys to string values. -/
abbrev Storage := List (String × String)

/-- Model of `localStorage.getItem` (null becomes `none`). -/
def getItem (s : Storage) (k : String) : Option String :=
  (s.find? fun p => p.1 == k).map Prod.snd

/-- Model of `localStorage.setItem`: overwrite the binding for `k`. -/
def setNv : Storage → String → String → Storage
  | [], k, v => [(k, v)]
  | (k1, v1) :: t, k, v => if k1 == k then (k, v) :: t else (k1, v1) :: setNv t k v

/-- What the chapter content area currently holds: untouched, an `innerHTML`
assignment, or a `textContent` assignment. -/
inductive ContentView where
  | empty
  | html (s : String)
  | text (s : String)
deriving DecidableEq

/-- An HTTP response: status code and body text. -/
structure Response where
  status : Nat
  body : String
deriving DecidableEq

/-- Predicate `response.ok`: status in the range 200–299. -/
def Response.ok (r : Response) : Bool :=
  200 ≤ r.status && r.status < 300

/-- The world outside the script: `fetch` (with `none` for a rejected
promise / network failure) and JSON parsing of a manifest body (`none` when
`response.json()` rejects or the document is not an array of records). -/
structure Env where
  fetch : String → Option Response
  parseChapters : String → Option (List ChapterRec)

/-- All state the script reads or writes: the three enclosing-scope variables
(`novelFolder`, `chapters`, `currentChapterIndex`), `localStorage`, and the
DOM sinks it assigns to. -/
structure ReaderState where
  novelFolder : String
  chapters : List ChapterObj
  currentChapterIndex : Int
  storage : Storage
  content : ContentView
  scrolledTop : Bool
  prevDisabled : Bool
  nextDisabled : Bool
  indicator : String
  novelTitle : String
  docTitle : String
  chapterListHtml : String
  contentFontSize : String
  contentLineHeight : String
  themeAttr : String
  fontSizeValueText : String
  lineHeightValueText : String
  fontSizeSlider : String
  lineHeightSlider : String
deriving DecidableEq

/-- The loading placeholder `innerHTML` (reader.js line 31). -/
def loadingHtml (c : ChapterObj) : String :=
  "<p class=\"loading-text\">Loading Chapter " ++ toString c.number ++ ": " ++ c.title ++ "...</p>"

/-- The fixed failure message `innerHTML` (reader.js line 50). -/
def failedHtml : String :=
  "<p class=\"loading-text\">Failed to load chapter. Please try again.</p>"

/-- Preferred chapter path (reader.js line 33). -/
def llmPathOf (novelFolder file : String) : String :=
  novelFolder ++ "/llm_chapters/" ++ file

/-- Fallback chapter path (reader.js line 34). -/
def rawPathOf (novelFolder file : String) : String :=
  novelFolder ++ "/raw_chapters/" ++ file

/-- Lines 37–41 of reader.js: fetch the preferred path; exactly when its
status is 404, fetch the fallback path instead.  Returns the response the
`response.ok` check then sees (`none` if the governing fetch rejected) and
the list of paths fetched. -/
def fetchChapter (env : Env) (lPath rPath : String) : Option Response × List String :=
  match env.fetch lPath with
  | none => (none, [lPath])
  | some r =>
    if r.status == 404 then (env.fetch rPath, [lPath, rPath])
    else (some r, [lPath])

/-- Embedding of `updateUI` (reader.js lines 55–59). -/
def updateUI (st : ReaderState) : ReaderState :=
  { st with
    prevDisabled := st.currentChapterIndex == 0,
    nextDisabled := st.currentChapterIndex == (st.chapters.length : Int) - 1,
    indicator := "Chapter " ++ toString (st.currentChapterIndex + 1) ++ " / " ++ toString st.chapters.length }

/-- Placeholder object for `chapters.getD`; the range guard in `loadChapter`
guarantees the index is in bounds, so it is never produced. -/
def dummyChapter : ChapterObj :=
  { ref := 0, number := 0, title := "", file := "" }

/-- Body of `loadChapter` after the range guard has passed and
`chapters[index]` has been read (reader.js lines 29–52). -/
def loadChapterGo (env : Env) (st : ReaderState) (index : Int) (chapter : ChapterObj) : ReaderState × List String :=
  let st1 := { st with currentChapterIndex := index, content := ContentView.html (loadingHtml chapter) }
  let lPath := llmPathOf st.novelFolder chapter.file
  let rPath := rawPathOf st.novelFolder chapter.file
  match fetchChapter env lPath rPath with
  | (some resp, trace) =>
    if resp.ok then
      let st2 := { st1 with content := ContentView.text resp.body, scrolledTop := true }
      let st3 := updateUI st2
      ({ st3 with storage := setNv st3.storage ("lastChapter-" ++ st.novelFolder) (toString index) }, trace)
    else
      ({ st1 with content := ContentView.html failedHtml }, trace)
  | (none, trace) => ({ st1 with content := ContentView.html failedHtml }, trace)

/-- Embedding of `loadChapter` (reader.js lines 26–53): early return on an out-of-range
index, otherwise run the fetch-display-persist body. -/
def loadChapter (env : Env) (st : ReaderState) (index : Int) : ReaderState × List String :=
  if index < 0 ∨ (st.chapters.length : Int) ≤ index then (st, [])
  else loadChapterGo env st index (st.chapters.getD index.toNat dummyChapter)

/-- One rendered chapter link (reader.js lines 62–63): the `data-index`
attribute is `chapters.indexOf(chap)` against the canonical list. -/
def chapterEntryHtml (chapters : List ChapterObj) (chap : ChapterObj) : String :=
  "<a href=\"#\" data-index=\"" ++ toString (indexOfJs chapters chap) ++ "\">" ++ toString chap.number ++ ". " ++ chap.title ++ "</a>"

/-- Embedding of `populateChapterList` (reader.js lines 61–65). -/
def populateList (st : ReaderState) (chaptersToRender : List ChapterObj) : ReaderState :=
  { st with chapterListHtml := String.join (chaptersToRender.map (chapterEntryHtml st.chapters)) }

/-- Characters matched by `listStartsWith needle` at the head of the haystack. -/
def listStartsWith : List Char → List Char → Bool
  | _, [] => true
  | [], _ :: _ => false
  | a :: as, b :: bs => a == b && listStartsWith as bs

/-- Model of `String.prototype.includes` on the underlying character lists. -/
def listContainsSub : List Char → List Char → Bool
  | [], needle => needle.isEmpty
  | a :: t, needle => listStartsWith (a :: t) needle || listContainsSub t needle

def strContainsSub (hay needle : String) : Bool :=
  listContainsSub hay.data needle.data

/-- Model of `String.prototype.toLowerCase`, written as a per-character lower-casing
of the underlying character list. -/
def strToLower (s : String) : String :=
  String.mk (s.data.map Char.toLower)

/-- The search listener filter (reader.js lines 164–167):
lower-case the input, keep chapters whose lower-cased title includes it. -/
def searchFilter (chapters : List ChapterObj) (value : String) : List ChapterObj :=
  let searchTerm := strToLower value
  chapters.filter fun c => strContainsSub (strToLower c.title) searchTerm

/-- Embedding of `applySetting` (reader.js lines 67–82): persist, then the key-specific
display side effect. -/
def applySetting (st : ReaderState) (key value : String) : ReaderState :=
  let st1 := { st with storage := setNv st.storage key value }
  if key == "fontSize" then
    { st1 with contentFontSize := value ++ "px", fontSizeValueText := value ++ "px" }
  else if key == "lineHeight" then
    { st1 with contentLineHeight := value, lineHeightValueText := value }
  else if key == "theme" then
    { st1 with themeAttr := value }
  else st1

/-- JS `x || d` where `x` is the `localStorage.getItem` result: `null` and the
empty string are falsy. -/
def jsOr (o : Option String) (d : String) : String :=
  match o with
  | none => d
  | some s => if s == "" then d else s

/-- Embedding of `loadSettings` (reader.js lines 84–93).  Returns the new state and the
`(key, value)` pairs passed to `applySetting`, in `Object.keys` order. -/
def loadSettings (st : ReaderState) : ReaderState × List (String × String) :=
  let fontSize := jsOr (getItem st.storage "fontSize") "18"
  let lineHeight := jsOr (getItem st.storage "lineHeight") "1.8"
  let theme := jsOr (getItem st.storage "theme") "light"
  let st1 := { st with fontSizeSlider := fontSize, lineHeightSlider := lineHeight }
  let st2 := applySetting st1 "fontSize" fontSize
  let st3 := applySetting st2 "lineHeight" lineHeight
  let st4 := applySetting st3 "theme" theme
  (st4, [("fontSize", fontSize), ("lineHeight", lineHeight), ("theme", theme)])

/-- The leading run of digits of a character list as a number, `none` when
there is no leading digit. -/
def digitsToNat? (l : List Char) : Option Nat :=
  let ds := l.takeWhile Char.isDigit
  if ds.isEmpty then none
  else some (ds.foldl (fun a c => a * 10 + (c.toNat - 48)) 0)

/-- Model of `parseInt(s, 10)`: skip leading whitespace, optional sign, then the
leading run of decimal digits; `none` models `NaN`. -/
def jsParseInt (s : String) : Option Int :=
  let l := s.data.dropWhile fun c => c == ' ' || c == '\t' || c == '\n' || c == '\r'
  match l with
  | '-' :: t => (digitsToNat? t).map fun n => -(n : Int)
  | '+' :: t => (digitsToNat? t).map fun n => (n : Int)
  | _ => (digitsToNat? l).map fun n => (n : Int)

/-- Model of `parseInt(x, 10) || 0` on a nullable stored string (reader.js line 115):
`parseInt(null)` is `NaN`, and both `NaN` and `0` fall through `|| 0` to `0`. -/
def parseIntOr0 (o : Option String) : Int :=
  match o with
  | none => 0
  | some s =>
    match jsParseInt s with
    | none => 0
    | some n => n

/-- Embedding of the readable-title computation: every hyphen of the novel
folder becomes a space (reader.js line 105). -/
def hyphensToSpaces (s : String) : String :=
  String.mk (s.data.map fun c => if c == '-' then ' ' else c)

/-- The manifest path derived from the novel folder (reader.js line 110). -/
def manifestPathOf (novel : String) : String :=
  novel ++ "/manifest.json"

/-- Lines 112–116 of reader.js, after a successful manifest fetch and parse:
store the chapter list, render the picker, read the persisted index with the
`parseInt || 0` fallback, and load that chapter. -/
def initWithManifest (env : Env) (st1 : ReaderState) (nf : String) (recs : List ChapterRec) : ReaderState × List String :=
  let chapters := parseManifest recs
  let st2 := { st1 with chapters := chapters }
  let st3 := populateList st2 chapters
  let idx := parseIntOr0 (getItem st3.storage ("lastChapter-" ++ nf))
  let res := loadChapter env st3 idx
  (res.1, manifestPathOf nf :: res.2)

/-- Embedding of `init` (reader.js lines 97–122).  `queryNovel` models the
novel query parameter (`none` for an absent parameter, which like the empty
string is falsy).  Returns the final state and the fetch trace. -/
def runInit (env : Env) (st : ReaderState) (queryNovel : Option String) : ReaderState × List String :=
  let nf := queryNovel.getD ""
  let st0 := { st with novelFolder := nf }
  if nf == "" then ({ st0 with novelTitle := "Novel not found in URL." }, [])
  else
    let readable := hyphensToSpaces nf
    let st1 := { st0 with novelTitle := readable, docTitle := readable }
    match env.fetch (manifestPathOf nf) with
    | none => ({ st1 with novelTitle := "Could not load novel." }, [manifestPathOf nf])
    | some resp =>
      if resp.ok then
        match env.parseChapters resp.body with
        | none => ({ st1 with novelTitle := "Could not load novel." }, [manifestPathOf nf])
        | some recs => initWithManifest env st1 nf recs
      else ({ st1 with novelTitle := "Could not load novel." }, [manifestPathOf nf])

/-! ## Basic lemmas about the storage map -/

theorem getItem_setNv_self (s : Storage) (k v : String) :
    getItem (setNv s k v) k = some v := by
  induction s with
  | nil => simp [setNv, getItem]
  | cons p t ih =>
    obtain ⟨k1, v1⟩ := p
    by_cases h : k1 = k
    · subst h
      simp [setNv, getItem]
    · simp only [setNv, beq_iff_eq, if_neg h]
      simpa [getItem, h] using ih

theorem getItem_setNv_ne (s : Storage) (k v k2 : String) (h : k2 ≠ k) :
    getItem (setNv s k v) k2 = getItem s k2 := by
  induction s with
  | nil => simp [setNv, getItem, Ne.symm h]
  | cons p t ih =>
    obtain ⟨k1, v1⟩ := p
    by_cases h1 : k1 = k
    · subst h1
      simp [setNv, getItem, Ne.symm h]
    · by_cases h2 : k1 = k2
      · subst h2
        simp [setNv, getItem, h1]
      · simp only [setNv, beq_iff_eq, if_neg h1]
        simpa [getItem, h2] using ih

/-! ## Characterizations of one chapter-load run -/

theorem loadChapter_eq_go (env : Env) (st : ReaderState) (index : Int)
    (h0 : 0 ≤ index) (h1 : index < (st.chapters.length : Int)) :
    loadChapter env st index =
      loadChapterGo env st index (st.chapters.getD index.toNat dummyChapter) := by
  unfold loadChapter
  rw [if_neg (by omega)]

theorem loadChapterGo_fetch_none (env : Env) (st : ReaderState) (index : Int)
    (chapter : ChapterObj) (tr : List String)
    (hF : fetchChapter env (llmPathOf st.novelFolder chapter.file)
            (rawPathOf st.novelFolder chapter.file) = (none, tr)) :
    loadChapterGo env st index chapter =
      ({ st with currentChapterIndex := index, content := ContentView.html failedHtml }, tr) := by
  unfold loadChapterGo
  simp only [hF]

theorem loadChapterGo_not_ok (env : Env) (st : ReaderState) (index : Int)
    (chapter : ChapterObj) (resp : Response) (tr : List String)
    (hF : fetchChapter env (llmPathOf st.novelFolder chapter.file)
            (rawPathOf st.novelFolder chapter.file) = (some resp, tr))
    (hok : resp.ok = false) :
    loadChapterGo env st index chapter =
      ({ st with currentChapterIndex := index, content := ContentView.html failedHtml }, tr) := by
  unfold loadChapterGo
  simp only [hF]
  simp [hok]

theorem loadChapterGo_ok (env : Env) (st : ReaderState) (index : Int)
    (chapter : ChapterObj) (resp : Response) (tr : List String)
    (hF : fetchChapter env (llmPathOf st.novelFolder chapter.file)
            (rawPathOf st.novelFolder chapter.file) = (some resp, tr))
    (hok : resp.ok = true) :
    loadChapterGo env st index chapter =
      ({ st with
          currentChapterIndex := index,
          content := ContentView.text resp.body,
          scrolledTop := true,
          prevDisabled := index == 0,
          nextDisabled := index == (st.chapters.length : Int) - 1,
          indicator := "Chapter " ++ toString (index + 1) ++ " / " ++ toString st.chapters.length,
          storage := setNv st.storage ("lastChapter-" ++ st.novelFolder) (toString index) }, tr) := by
  unfold loadChapterGo
  simp only [hF]
  simp [hok, updateUI]

/-! ## Concrete fixtures for witnesses and counterexamples -/

def demoRecs : List ChapterRec :=
  [{ number := 1, title := "A", file := "1.txt" }, { number := 2, title := "B", file := "2.txt" }]

def demoState : ReaderState :=
  { novelFolder := "demo", chapters := parseManifest demoRecs, currentChapterIndex := 0,
    storage := [], content := ContentView.empty, scrolledTop := false, prevDisabled := false,
    nextDisabled := false, indicator := "", novelTitle := "", docTitle := "",
    chapterListHtml := "", contentFontSize := "", contentLineHeight := "", themeAttr := "",
    fontSizeValueText := "", lineHeightValueText := "", fontSizeSlider := "", lineHeightSlider := "" }

/-- An environment whose every fetch rejects (network down). -/
def envReject : Env :=
  { fetch := fun _ => none, parseChapters := fun _ => none }

/-- An environment whose every fetch succeeds with status 200. -/
def envOk : Env :=
  { fetch := fun p => some { status := 200, body := "BODY:" ++ p },
    parseChapters := fun _ => some demoRecs }

/-- An environment where the preferred variant of chapter file `1.txt` of
novel `demo` is missing (404) but the fallback succeeds. -/
def env404 : Env :=
  { fetch := fun p =>
      if p == llmPathOf "demo" "1.txt" then some { status := 404, body := "" }
      else some { status := 200, body := "RAW" },
    parseChapters := fun _ => some demoRecs }

/-! ## More shared helper lemmas -/

theorem loadChapter_oob (env : Env) (st : ReaderState) (index : Int)
    (h : index < 0 ∨ (st.chapters.length : Int) ≤ index) :
    loadChapter env st index = (st, []) := by
  unfold loadChapter
  rw [if_pos h]

theorem llm_ne_raw (nf f : String) : llmPathOf nf f ≠ rawPathOf nf f := by
  unfold llmPathOf rawPathOf
  intro h
  have hd := congrArg String.data h
  simp only [String.data_append] at hd
  have h2 := List.append_cancel_right hd
  have h3 := List.append_cancel_left h2
  exact absurd h3 (by decide)

theorem lastChapter_key_ne (nf k : String)
    (hk : k = "fontSize" ∨ k = "lineHeight" ∨ k = "theme") :
    "lastChapter-" ++ nf ≠ k := by
  have e0 : ("lastChapter-" : String).length = 12 := rfl
  have e1 : ("fontSize" : String).length = 8 := rfl
  have e2 : ("lineHeight" : String).length = 10 := rfl
  have e3 : ("theme" : String).length = 5 := rfl
  intro h
  have hl := congrArg String.length h
  rw [String.length_append] at hl
  rcases hk with h4 | h4 | h4 <;> subst h4 <;> omega

theorem applySetting_storage (st : ReaderState) (k v : String) :
    (applySetting st k v).storage = setNv st.storage k v := by
  unfold applySetting
  split_ifs <;> rfl

theorem loadChapterGo_trace (env : Env) (st : ReaderState) (index : Int) (chapter : ChapterObj) :
    (loadChapterGo env st index chapter).2 =
      (fetchChapter env (llmPathOf st.novelFolder chapter.file)
        (rawPathOf st.novelFolder chapter.file)).2 := by
  rcases hF : fetchChapter env (llmPathOf st.novelFolder chapter.file)
      (rawPathOf st.novelFolder chapter.file) with ⟨ro, tr⟩
  cases ro with
  | none => rw [loadChapterGo_fetch_none env st index chapter tr hF]
  | some resp =>
    by_cases hok : resp.ok = true
    · rw [loadChapterGo_ok env st index chapter resp tr hF hok]
    · rw [loadChapterGo_not_ok env st index chapter resp tr hF (by simpa using hok)]

/-! ## C3: out-of-range chapter load is a no-op -/

/-- C3: for every index outside `[0, length-1]` — negative or at least the
chapter-list length — `loadChapter` returns with the state unchanged and an
empty fetch trace, so displayed content, current chapter index, and persisted
storage are all untouched and no fetch happens. -/
theorem claim3_out_of_range_noop (env : Env) (st : ReaderState) (index : Int)
    (h : index < 0 ∨ (st.chapters.length : Int) ≤ index) :
    loadChapter env st index = (st, []) := by
  unfold loadChapter
  rw [if_pos h]

theorem claim3_witness :
    ((5 : Int) < 0 ∨ ((parseManifest demoRecs).length : Int) ≤ 5) ∧
      loadChapter envReject demoState 5 = (demoState, []) :=
  ⟨Or.inr (by decide), claim3_out_of_range_noop envReject demoState 5 (Or.inr (by decide))⟩

/-! ## C7: previous/next disabled exactly at the boundaries -/

/-- C7: for every chapter list of length at least 1, after `updateUI` the
previous control is disabled iff the current index is 0, and the next control
is disabled iff the current index is length − 1. -/
theorem claim7_nav_buttons (st : ReaderState) (h : 1 ≤ st.chapters.length) :
    ((updateUI st).prevDisabled = true ↔ st.currentChapterIndex = 0) ∧
      ((updateUI st).nextDisabled = true ↔
        st.currentChapterIndex = (st.chapters.length : Int) - 1) := by
  unfold updateUI
  constructor
  · simp
  · simp

theorem claim7_witness :
    1 ≤ demoState.chapters.length ∧
      (((updateUI demoState).prevDisabled = true ↔ demoState.currentChapterIndex = 0) ∧
        ((updateUI demoState).nextDisabled = true ↔
          demoState.currentChapterIndex = (demoState.chapters.length : Int) - 1)) :=
  ⟨by decide, claim7_nav_buttons demoState (by decide)⟩

/-! ## C4: a successful load of index i sets navigation state and storage to i -/

/-- C4: for every in-range index, when the chapter fetch resolves to a
successful response, `loadChapter` leaves the current chapter index equal to
the loaded index and the storage entry `lastChapter-{novel}` equal to that
index (stringified, as `localStorage` stores strings). -/
theorem claim4_success_sets_index_and_storage (env : Env) (st : ReaderState) (index : Int)
    (chapter : ChapterObj) (resp : Response) (tr : List String)
    (h0 : 0 ≤ index) (h1 : index < (st.chapters.length : Int))
    (hch : st.chapters.getD index.toNat dummyChapter = chapter)
    (hF : fetchChapter env (llmPathOf st.novelFolder chapter.file)
            (rawPathOf st.novelFolder chapter.file) = (some resp, tr))
    (hok : resp.ok = true) :
    (loadChapter env st index).1.currentChapterIndex = index ∧
      getItem (loadChapter env st index).1.storage ("lastChapter-" ++ st.novelFolder) =
        some (toString index) := by
  rw [loadChapter_eq_go env st index h0 h1, hch,
    loadChapterGo_ok env st index chapter resp tr hF hok]
  exact ⟨rfl, getItem_setNv_self st.storage ("lastChapter-" ++ st.novelFolder) (toString index)⟩

theorem claim4_witness :
    (loadChapter envOk demoState 1).1.currentChapterIndex = 1 ∧
      getItem (loadChapter envOk demoState 1).1.storage ("lastChapter-" ++ demoState.novelFolder) =
        some (toString (1 : Int)) :=
  claim4_success_sets_index_and_storage envOk demoState 1
    { ref := 1, number := 2, title := "B", file := "2.txt" }
    { status := 200, body := "BODY:demo/llm_chapters/2.txt" }
    ["demo/llm_chapters/2.txt"]
    (by decide) (by decide) (by decide) (by decide) (by decide)

/-! ## C9: the lastChapter-{novel} entry is written only by a successful in-range load -/

/-- C9: across both storage-writing operations of the program, the entry
`lastChapter-{novelFolder}` is either left exactly as it was (out-of-range or
failed load, and every `applySetting` call the program makes, whose keys are
`fontSize`, `lineHeight`, `theme`), or the load was in range and reached the
Displayed state, and the entry holds that in-range index. -/
theorem claim9_lastChapter_write_invariant (env : Env) (st : ReaderState) (index : Int)
    (k v : String) (hk : k = "fontSize" ∨ k = "lineHeight" ∨ k = "theme") :
    (getItem (loadChapter env st index).1.storage ("lastChapter-" ++ st.novelFolder) =
       getItem st.storage ("lastChapter-" ++ st.novelFolder) ∨
     (0 ≤ index ∧ index < (st.chapters.length : Int) ∧
      getItem (loadChapter env st index).1.storage ("lastChapter-" ++ st.novelFolder) =
        some (toString index) ∧
      ∃ body, (loadChapter env st index).1.content = ContentView.text body)) ∧
    getItem (applySetting st k v).storage ("lastChapter-" ++ st.novelFolder) =
      getItem st.storage ("lastChapter-" ++ st.novelFolder) := by
  constructor
  · by_cases hr : index < 0 ∨ (st.chapters.length : Int) ≤ index
    · left
      rw [loadChapter_oob env st index hr]
    · push_neg at hr
      obtain ⟨h0, h1⟩ := hr
      have h0' : 0 ≤ index := by omega
      rw [loadChapter_eq_go env st index h0' h1]
      rcases hF : fetchChapter env
          (llmPathOf st.novelFolder (st.chapters.getD index.toNat dummyChapter).file)
          (rawPathOf st.novelFolder (st.chapters.getD index.toNat dummyChapter).file)
        with ⟨ro, tr⟩
      cases ro with
      | none =>
        left
        rw [loadChapterGo_fetch_none env st index _ tr hF]
      | some resp =>
        by_cases hok : resp.ok = true
        · right
          rw [loadChapterGo_ok env st index _ resp tr hF hok]
          exact ⟨h0', h1,
            getItem_setNv_self st.storage ("lastChapter-" ++ st.novelFolder) (toString index),
            resp.body, rfl⟩
        · left
          rw [loadChapterGo_not_ok env st index _ resp tr hF (by simpa using hok)]
  · rw [applySetting_storage]
    exact getItem_setNv_ne st.storage k v ("lastChapter-" ++ st.novelFolder)
      (lastChapter_key_ne st.novelFolder k hk)

theorem claim9_witness :
    (getItem (loadChapter envOk demoState 0).1.storage ("lastChapter-" ++ demoState.novelFolder) =
       getItem demoState.storage ("lastChapter-" ++ demoState.novelFolder) ∨
     (0 ≤ (0 : Int) ∧ (0 : Int) < (demoState.chapters.length : Int) ∧
      getItem (loadChapter envOk demoState 0).1.storage ("lastChapter-" ++ demoState.novelFolder) =
        some (toString (0 : Int)) ∧
      ∃ body, (loadChapter envOk demoState 0).1.content = ContentView.text body)) ∧
    getItem (applySetting demoState "fontSize" "20").storage
        ("lastChapter-" ++ demoState.novelFolder) =
      getItem demoState.storage ("lastChapter-" ++ demoState.novelFolder) :=
  claim9_lastChapter_write_invariant envOk demoState 0 "fontSize" "20" (Or.inl rfl)

/-! ## C1: what a failed chapter load does to the state -/

/-- C1 counterexample: with two chapters, current index 0, and a network
that rejects every fetch, loading index 1 shows the fixed retry message but
leaves the current chapter index at 1 — not at its pre-attempt value 0.  The
claim text "navigation state unchanged from before the attempt" is false:
`loadChapter` assigns `currentChapterIndex = index` before fetching
(reader.js line 29), not on the transition to Displayed. -/
theorem claim1_counterexample :
    demoState.currentChapterIndex = 0 ∧
      (loadChapter envReject demoState 1).1.content = ContentView.html failedHtml ∧
      (loadChapter envReject demoState 1).1.currentChapterIndex = 1 := by
  refine ⟨rfl, ?_, ?_⟩ <;> decide

/-- An environment/path pair on which the chapter fetch of reader.js lines
37–42 fails: the preferred fetch rejects, or resolves non-ok after the
404-triggered fallback substitution. -/
def fetchChapterFails (env : Env) (lPath rPath : String) : Prop :=
  match (fetchChapter env lPath rPath).1 with
  | none => True
  | some resp => resp.ok = false

/-- C1 amended: on chapter load failure (missing/unreachable body after the
preferred/fallback resolution) the content area shows the fixed retry
message, and the persisted index, navigation indicator, button-disabled
flags and scroll state are unchanged from before the attempt — but the
current chapter index has already been set to the attempted index before
the fetch, so it is NOT the pre-attempt value; only the indicator/buttons
and persistence wait for the transition to Displayed. -/
theorem claim1_failed_load_state (env : Env) (st : ReaderState) (index : Int)
    (chapter : ChapterObj)
    (h0 : 0 ≤ index) (h1 : index < (st.chapters.length : Int))
    (hch : st.chapters.getD index.toNat dummyChapter = chapter)
    (hf : fetchChapterFails env (llmPathOf st.novelFolder chapter.file)
            (rawPathOf st.novelFolder chapter.file)) :
    (loadChapter env st index).1.content = ContentView.html failedHtml ∧
      (loadChapter env st index).1.currentChapterIndex = index ∧
      (loadChapter env st index).1.storage = st.storage ∧
      (loadChapter env st index).1.prevDisabled = st.prevDisabled ∧
      (loadChapter env st index).1.nextDisabled = st.nextDisabled ∧
      (loadChapter env st index).1.indicator = st.indicator ∧
      (loadChapter env st index).1.scrolledTop = st.scrolledTop := by
  rw [loadChapter_eq_go env st index h0 h1, hch]
  unfold fetchChapterFails at hf
  rcases hF : fetchChapter env (llmPathOf st.novelFolder chapter.file)
      (rawPathOf st.novelFolder chapter.file) with ⟨ro, tr⟩
  rw [hF] at hf
  cases ro with
  | none =>
    rw [loadChapterGo_fetch_none env st index chapter tr hF]
    exact ⟨rfl, rfl, rfl, rfl, rfl, rfl, rfl⟩
  | some resp =>
    rw [loadChapterGo_not_ok env st index chapter resp tr hF hf]
    exact ⟨rfl, rfl, rfl, rfl, rfl, rfl, rfl⟩

theorem claim1_witness :
    (loadChapter envReject demoState 1).1.content = ContentView.html failedHtml ∧
      (loadChapter envReject demoState 1).1.currentChapterIndex = 1 ∧
      (loadChapter envReject demoState 1).1.storage = demoState.storage ∧
      (loadChapter envReject demoState 1).1.prevDisabled = demoState.prevDisabled ∧
      (loadChapter envReject demoState 1).1.nextDisabled = demoState.nextDisabled ∧
      (loadChapter envReject demoState 1).1.indicator = demoState.indicator ∧
      (loadChapter envReject demoState 1).1.scrolledTop = demoState.scrolledTop :=
  claim1_failed_load_state envReject demoState 1
    { ref := 1, number := 2, title := "B", file := "2.txt" }
    (by decide) (by decide) (by decide) (by trivial)

/-! ## C2: 404-triggered fallback, fetched exactly once; other errors short-circuit -/

/-- C2: for an in-range load whose preferred-path fetch resolves: if its
status is 404, the fallback path is fetched exactly once (the whole trace is
preferred-then-fallback) and a failing fallback (rejected or non-ok) leaves
the Failed message; if its status is anything else non-successful, the
fallback is never fetched (the trace is the preferred path alone) and the
load ends in the Failed message. -/
theorem claim2_fallback_policy (env : Env) (st : ReaderState) (index : Int)
    (chapter : ChapterObj) (resp : Response)
    (h0 : 0 ≤ index) (h1 : index < (st.chapters.length : Int))
    (hch : st.chapters.getD index.toNat dummyChapter = chapter)
    (hfetch : env.fetch (llmPathOf st.novelFolder chapter.file) = some resp) :
    (resp.status = 404 →
      (loadChapter env st index).2 =
        [llmPathOf st.novelFolder chapter.file, rawPathOf st.novelFolder chapter.file] ∧
      (loadChapter env st index).2.count (rawPathOf st.novelFolder chapter.file) = 1 ∧
      ((env.fetch (rawPathOf st.novelFolder chapter.file) = none ∨
          ∃ resp2, env.fetch (rawPathOf st.novelFolder chapter.file) = some resp2 ∧
            resp2.ok = false) →
        (loadChapter env st index).1.content = ContentView.html failedHtml)) ∧
    (resp.status ≠ 404 → resp.ok = false →
      (loadChapter env st index).2 = [llmPathOf st.novelFolder chapter.file] ∧
      (loadChapter env st index).2.count (rawPathOf st.novelFolder chapter.file) = 0 ∧
      (loadChapter env st index).1.content = ContentView.html failedHtml) := by
  rw [loadChapter_eq_go env st index h0 h1, hch]
  have hne : llmPathOf st.novelFolder chapter.file ≠ rawPathOf st.novelFolder chapter.file :=
    llm_ne_raw st.novelFolder chapter.file
  constructor
  · intro h404
    have hFC : fetchChapter env (llmPathOf st.novelFolder chapter.file)
        (rawPathOf st.novelFolder chapter.file) =
        (env.fetch (rawPathOf st.novelFolder chapter.file),
         [llmPathOf st.novelFolder chapter.file, rawPathOf st.novelFolder chapter.file]) := by
      unfold fetchChapter
      rw [hfetch]
      simp [h404]
    refine ⟨?_, ?_, ?_⟩
    · rw [loadChapterGo_trace env st index chapter, hFC]
    · rw [loadChapterGo_trace env st index chapter, hFC]
      simp [List.count_cons, List.count_nil, Ne.symm hne]
    · intro hfb
      rcases hfb with hfb | ⟨resp2, hfb, hok2⟩
      · rw [hfb] at hFC
        rw [loadChapterGo_fetch_none env st index chapter _ hFC]
      · rw [hfb] at hFC
        rw [loadChapterGo_not_ok env st index chapter resp2 _ hFC hok2]
  · intro h404 hok
    have hFC : fetchChapter env (llmPathOf st.novelFolder chapter.file)
        (rawPathOf st.novelFolder chapter.file) =
        (some resp, [llmPathOf st.novelFolder chapter.file]) := by
      unfold fetchChapter
      rw [hfetch]
      simp [h404]
    refine ⟨?_, ?_, ?_⟩
    · rw [loadChapterGo_trace env st index chapter, hFC]
    · rw [loadChapterGo_trace env st index chapter, hFC]
      simp [List.count_cons, List.count_nil, Ne.symm hne]
    · rw [loadChapterGo_not_ok env st index chapter resp _ hFC hok]

theorem claim2_witness :
    (loadChapter env404 demoState 0).2 =
        [llmPathOf demoState.novelFolder "1.txt", rawPathOf demoState.novelFolder "1.txt"] ∧
      (loadChapter env404 demoState 0).2.count (rawPathOf demoState.novelFolder "1.txt") = 1 := by
  have h := claim2_fallback_policy env404 demoState 0
    { ref := 0, number := 1, title := "A", file := "1.txt" }
    { status := 404, body := "" }
    (by decide) (by decide) (by decide) (by decide)
  exact ⟨(h.1 rfl).1, (h.1 rfl).2.1⟩

/-! ## C5: which keys loadSettings reads, and the last-chapter parse fallback -/

/-- C5 counterexample: with `lastChapter-demo = "7"` in storage,
`loadSettings` passes exactly the three display keys to `applySetting` —
`fontSize`, `lineHeight`, `theme` — and never the last-chapter key, and it
leaves the current chapter index untouched.  The claim text "loadSettings()
reads all four preference keys ... and applies each" is false: the
last-chapter key is read in `init` (reader.js line 115), not in
`loadSettings` (lines 84–93). -/
theorem claim5_counterexample :
    (loadSettings { demoState with storage := [("lastChapter-demo", "7")] }).2.map Prod.fst =
        ["fontSize", "lineHeight", "theme"] ∧
      "lastChapter-demo" ∉
        (loadSettings { demoState with storage := [("lastChapter-demo", "7")] }).2.map Prod.fst ∧
      (loadSettings { demoState with storage := [("lastChapter-demo", "7")] }).1.currentChapterIndex =
        demoState.currentChapterIndex := by
  refine ⟨?_, ?_, ?_⟩ <;> decide

/-- C5 amended: `loadSettings()` reads the three display preference keys
with hardcoded defaults when absent (font size 18, line height 1.8, theme
"light") and applies each; the fourth persisted key, the last-chapter index,
is instead read during `init`, where a malformed stored value defaults to 0
via the numeric-parsing fallback rather than an explicit error. -/
theorem claim5_settings_behavior (st : ReaderState) (v : String)
    (hbad : jsParseInt v = none) :
    (loadSettings st).2 =
        [("fontSize", jsOr (getItem st.storage "fontSize") "18"),
         ("lineHeight", jsOr (getItem st.storage "lineHeight") "1.8"),
         ("theme", jsOr (getItem st.storage "theme") "light")] ∧
      (loadSettings st).1.contentFontSize = jsOr (getItem st.storage "fontSize") "18" ++ "px" ∧
      (loadSettings st).1.contentLineHeight = jsOr (getItem st.storage "lineHeight") "1.8" ∧
      (loadSettings st).1.themeAttr = jsOr (getItem st.storage "theme") "light" ∧
      parseIntOr0 (some v) = 0 ∧ parseIntOr0 none = 0 := by
  refine ⟨rfl, rfl, rfl, rfl, ?_, rfl⟩
  simp [parseIntOr0, hbad]

theorem claim5_witness :
    (loadSettings demoState).2 =
        [("fontSize", jsOr (getItem demoState.storage "fontSize") "18"),
         ("lineHeight", jsOr (getItem demoState.storage "lineHeight") "1.8"),
         ("theme", jsOr (getItem demoState.storage "theme") "light")] ∧
      (loadSettings demoState).1.contentFontSize =
        jsOr (getItem demoState.storage "fontSize") "18" ++ "px" ∧
      (loadSettings demoState).1.contentLineHeight =
        jsOr (getItem demoState.storage "lineHeight") "1.8" ∧
      (loadSettings demoState).1.themeAttr = jsOr (getItem demoState.storage "theme") "light" ∧
      parseIntOr0 (some "oops") = 0 ∧ parseIntOr0 none = 0 :=
  claim5_settings_behavior demoState "oops" (by decide)

/-! ## C6: filtered selection maps back to the canonical index -/

theorem buildObjs_ref_ge (recs : List ChapterRec) :
    ∀ (i0 : Nat) (x : ChapterObj), x ∈ buildObjs i0 recs → i0 ≤ x.ref := by
  induction recs with
  | nil =>
    intro i0 x hx
    simp [buildObjs] at hx
  | cons r t ih =>
    intro i0 x hx
    simp only [buildObjs, List.mem_cons] at hx
    rcases hx with h | h
    · subst h
      simp
    · have := ih (i0 + 1) x h
      omega

theorem buildObjs_getElem (recs : List ChapterRec) :
    ∀ (i0 : Nat) (x : ChapterObj), x ∈ buildObjs i0 recs →
      (buildObjs i0 recs)[x.ref - i0]? = some x := by
  induction recs with
  | nil =>
    intro i0 x hx
    simp [buildObjs] at hx
  | cons r t ih =>
    intro i0 x hx
    simp only [buildObjs, List.mem_cons] at hx
    rcases hx with h | h
    · subst h
      simp [buildObjs]
    · have hge := buildObjs_ref_ge t (i0 + 1) x h
      have harith : x.ref - i0 = (x.ref - (i0 + 1)) + 1 := by omega
      simp only [buildObjs, harith, List.getElem?_cons_succ]
      exact ih (i0 + 1) x h

theorem indexOfJsAux_buildObjs (recs : List ChapterRec) :
    ∀ (i0 j : Nat) (x : ChapterObj), x ∈ buildObjs i0 recs →
      indexOfJsAux j (buildObjs i0 recs) x = (j : Int) + ((x.ref - i0 : Nat) : Int) := by
  induction recs with
  | nil =>
    intro i0 j x hx
    simp [buildObjs] at hx
  | cons r t ih =>
    intro i0 j x hx
    simp only [buildObjs, List.mem_cons] at hx
    rcases hx with h | h
    · subst h
      simp [indexOfJsAux]
    · have hge := buildObjs_ref_ge t (i0 + 1) x h
      have hne : (i0 == x.ref) = false := by
        simp only [beq_eq_false_iff_ne, ne_eq]
        omega
      simp only [buildObjs, indexOfJsAux, hne, Bool.false_eq_true, if_false]
      rw [ih (i0 + 1) (j + 1) x h]
      omega

/-- C6: the search filter is the case-insensitive title-substring filter, and
for every filtered view of a parsed manifest, the `data-index` computed for
the Nth visible entry (`chapters.indexOf(chap)`) is the canonical
position of that entry in the unfiltered list — the canonical list there is
exactly the selected entry, so clicking it loads that chapter, not the one at
filtered position N. -/
theorem claim6_filtered_selection_canonical (recs : List ChapterRec) (value : String) (n : Nat)
    (h : n < (searchFilter (parseManifest recs) value).length) :
    indexOfJs (parseManifest recs) ((searchFilter (parseManifest recs) value).get ⟨n, h⟩) =
        (((searchFilter (parseManifest recs) value).get ⟨n, h⟩).ref : Int) ∧
      (parseManifest recs)[((searchFilter (parseManifest recs) value).get ⟨n, h⟩).ref]? =
        some ((searchFilter (parseManifest recs) value).get ⟨n, h⟩) := by
  set c := (searchFilter (parseManifest recs) value).get ⟨n, h⟩ with hc
  have hmem : c ∈ searchFilter (parseManifest recs) value := List.get_mem _ _ _
  have hmem2 : c ∈ buildObjs 0 recs := by
    simp only [searchFilter, parseManifest] at hmem
    exact List.mem_of_mem_filter hmem
  constructor
  · have hi := indexOfJsAux_buildObjs recs 0 0 c hmem2
    simpa [indexOfJs, parseManifest] using hi
  · have hg := buildObjs_getElem recs 0 c hmem2
    simpa [parseManifest] using hg

theorem claim6_witness :
    indexOfJs (parseManifest demoRecs)
        ((searchFilter (parseManifest demoRecs) "b").get ⟨0, by decide⟩) =
        ((((searchFilter (parseManifest demoRecs) "b").get ⟨0, by decide⟩).ref : Nat) : Int) ∧
      (parseManifest demoRecs)[((searchFilter (parseManifest demoRecs) "b").get
          ⟨0, by decide⟩).ref]? =
        some ((searchFilter (parseManifest demoRecs) "b").get ⟨0, by decide⟩) :=
  claim6_filtered_selection_canonical demoRecs "b" 0 (by decide)

/-! ## C8: manifest failure surfaces an error and stops -/

/-- C8: when the manifest fetch rejects or returns a non-success status,
`init` puts the fixed error message in the title area, changes neither the
chapter list nor the content area nor the navigation index nor storage, and
its whole fetch trace is the single manifest request — no chapter load is
attempted and nothing is retried. -/
theorem claim8_manifest_failure (env : Env) (st : ReaderState) (nf : String)
    (hnf : nf ≠ "")
    (hfail : env.fetch (manifestPathOf nf) = none ∨
      ∃ resp, env.fetch (manifestPathOf nf) = some resp ∧ resp.ok = false) :
    (runInit env st (some nf)).1.novelTitle = "Could not load novel." ∧
      (runInit env st (some nf)).1.chapters = st.chapters ∧
      (runInit env st (some nf)).1.content = st.content ∧
      (runInit env st (some nf)).1.currentChapterIndex = st.currentChapterIndex ∧
      (runInit env st (some nf)).1.storage = st.storage ∧
      (runInit env st (some nf)).2 = [manifestPathOf nf] := by
  have hbe : (nf == "") = false := by simpa using hnf
  rcases hfail with hF | ⟨resp, hF, hok⟩
  · unfold runInit
    simp [Option.getD_some, hbe, hF]
  · unfold runInit
    simp [Option.getD_some, hbe, hF, hok]

theorem claim8_witness :
    (runInit envReject demoState (some "demo")).1.novelTitle = "Could not load novel." ∧
      (runInit envReject demoState (some "demo")).1.chapters = demoState.chapters ∧
      (runInit envReject demoState (some "demo")).1.content = demoState.content ∧
      (runInit envReject demoState (some "demo")).1.currentChapterIndex =
        demoState.currentChapterIndex ∧
      (runInit envReject demoState (some "demo")).1.storage = demoState.storage ∧
      (runInit envReject demoState (some "demo")).2 = [manifestPathOf "demo"] :=
  claim8_manifest_failure envReject demoState "demo" (by decide) (Or.inl rfl)

/-! ## C10: stored index at or beyond the fresh manifest length -/

/-- C10: at initialization, when the stored `lastChapter-{novel}` value
parses (via the `parseInt || 0` fallback) to an index at or beyond the
length of the freshly loaded manifest, the trailing `loadChapter` call is a
silent no-op: the only fetch in the whole run is the manifest request, the
content area and the current index and storage are untouched, and the title
still shows the readable novel name — no error message anywhere. -/
theorem claim10_stale_stored_index (env : Env) (st : ReaderState) (nf s : String)
    (recs : List ChapterRec) (resp : Response)
    (hnf : nf ≠ "")
    (hfetch : env.fetch (manifestPathOf nf) = some resp)
    (hok : resp.ok = true)
    (hparse : env.parseChapters resp.body = some recs)
    (hstored : getItem st.storage ("lastChapter-" ++ nf) = some s)
    (hidx : ((parseManifest recs).length : Int) ≤ parseIntOr0 (some s)) :
    (runInit env st (some nf)).1.content = st.content ∧
      (runInit env st (some nf)).1.currentChapterIndex = st.currentChapterIndex ∧
      (runInit env st (some nf)).1.storage = st.storage ∧
      (runInit env st (some nf)).1.novelTitle = hyphensToSpaces nf ∧
      (runInit env st (some nf)).2 = [manifestPathOf nf] := by
  have hbe : (nf == "") = false := by simpa using hnf
  unfold runInit
  simp only [Option.getD_some, hbe, Bool.false_eq_true, if_false, hfetch, hok, if_true, hparse]
  unfold initWithManifest populateList
  simp only
  rw [hstored]
  rw [loadChapter_oob env _ (parseIntOr0 (some s)) (Or.inr hidx)]
  exact ⟨rfl, rfl, rfl, rfl, rfl⟩

theorem claim10_witness :
    (runInit envOk { demoState with chapters := [], storage := [("lastChapter-demo", "5")] }
        (some "demo")).1.content =
        ({ demoState with chapters := [], storage := [("lastChapter-demo", "5")] } : ReaderState).content ∧
      (runInit envOk { demoState with chapters := [], storage := [("lastChapter-demo", "5")] }
          (some "demo")).1.currentChapterIndex =
        ({ demoState with chapters := [], storage := [("lastChapter-demo", "5")] } : ReaderState).currentChapterIndex ∧
      (runInit envOk { demoState with chapters := [], storage := [("lastChapter-demo", "5")] }
          (some "demo")).1.storage =
        ({ demoState with chapters := [], storage := [("lastChapter-demo", "5")] } : ReaderState).storage ∧
      (runInit envOk { demoState with chapters := [], storage := [("lastChapter-demo", "5")] }
          (some "demo")).1.novelTitle = hyphensToSpaces "demo" ∧
      (runInit envOk { demoState with chapters := [], storage := [("lastChapter-demo", "5")] }
          (some "demo")).2 = [manifestPathOf "demo"] :=
  claim10_stale_stored_index envOk
    { demoState with chapters := [], storage := [("lastChapter-demo", "5")] }
    "demo" "5" demoRecs { status := 200, body := "BODY:demo/manifest.json" }
    (by decide) (by decide) (by decide) rfl (by decide) (by decide)

end NovelReader
